import Mathlib

/-!
Verification of the LockBox credential-vault core (`src/lib/actions.ts`)
against its natural-language specification.

The TypeScript operations are shallowly embedded: the MongoDB `users`
collection becomes a `List User`, `findOne` becomes `List.find?` over that
list, `updateOne`/`insertOne` become pure list transformations returning the
new collection, and a thrown `DecryptionError` becomes the `Except` monad.
Random values consumed by the code (`randomUUID`, the cipher's fresh IV per
`encrypt` call) are passed in as explicit parameters.

The username lookup interpolates the supplied username unescaped into an
anchored case-insensitive RegExp.  Its semantics is embedded by an
executable engine on the fragment made of literal characters, the wildcard
dot, and the postfix quantifiers with their lazy markers, in which the
"nothing to repeat" SyntaxError of the constructor is also modelled;
usernames using constructs beyond the fragment (groups, classes, escapes,
alternation, braces, inner anchors) are mapped to a distinguished
`outsideModel` outcome about which no theorem concludes anything.
-/

namespace LockBox

/-- Modelled from the spec: the cipher module (`src/lib/encryption.ts`) is not
among the provided source files; only its call sites are.  Per spec section 4.1
a ciphertext blob embeds a fresh random initialization vector alongside the
encrypted bytes, `decrypt` is a deterministic inverse of `encrypt` on blobs
produced by `encrypt`, and `decrypt` fails with a `DecryptionError` on any
malformed blob (for example a legacy plaintext string stored before encryption
existed).  A stored string is therefore modelled as either a well-formed blob
(IV plus recoverable payload) or a raw string that `encrypt` never produced. -/
inductive CT where
  | blob (iv : Nat) (payload : String)
  | raw (s : String)
deriving DecidableEq, Repr

/-- Modelled from the spec: the error `decrypt` raises on a malformed blob. -/
inductive DecryptionError where
  | malformed
deriving DecidableEq, Repr

/-- Modelled from the spec: `encrypt` pairs a fresh IV with the plaintext. -/
def encrypt (iv : Nat) (plaintext : String) : CT :=
  CT.blob iv plaintext

/-- Modelled from the spec: `decrypt` recovers the payload of a well-formed
blob and raises `DecryptionError` on anything else. -/
def decrypt : CT → Except DecryptionError String
  | CT.blob _ payload => Except.ok payload
  | CT.raw _ => Except.error DecryptionError.malformed

/-- Whether a stored string is a well-formed ciphertext blob. -/
def CT.isBlob : CT → Bool
  | CT.blob _ _ => true
  | CT.raw _ => false

/-- JavaScript truthiness of the underlying stored string: a blob is a
non-empty encoded string, a raw string is truthy when non-empty. -/
def CT.truthy : CT → Bool
  | CT.blob _ _ => true
  | CT.raw s => s != ""

/-- The plaintext recovered from a blob (for a raw string, the string itself;
`decrypt` only succeeds on blobs). -/
def CT.plaintext : CT → String
  | CT.blob _ payload => payload
  | CT.raw s => s

/-- A custom label/value pair as stored (both ciphertext), from `types.ts`
usage in `actions.ts`. -/
structure CustomField where
  label : CT
  value : CT
deriving DecidableEq, Repr

/-- A stored bank record; the shape used by `actions.ts`. -/
structure Bank where
  id : String
  bankName : CT
  phoneForOtp : CT
  accountNumber : CT
  netBankingUsername : CT
  netBankingPassword : Option CT
  mobileBankingUsername : CT
  mobileBankingPassword : Option CT
  atmPin : Option CT
  customFields : Option (List CustomField)
deriving DecidableEq, Repr

/-- A stored user document. -/
structure User where
  id : String
  username : String
  masterPassword : CT
  banks : List Bank
deriving DecidableEq, Repr

/-- The user object returned to callers: `masterPassword` stripped
(`const \x7b masterPassword, ...userToReturn \x7d = plainUser`). -/
structure UserPublic where
  id : String
  username : String
  banks : List Bank
deriving DecidableEq, Repr

/-- Strip the master password from a user document. -/
def UserPublic.ofUser (u : User) : UserPublic :=
  { id := u.id, username := u.username, banks := u.banks }

/-- The per-bank summary returned by `getBanksForUser`. -/
structure BankListItem where
  id : String
  bankName : String
  accountNumber : String
deriving DecidableEq, Repr

/-- A decrypted custom field as produced by `decryptBank`. -/
structure PlainCustomField where
  label : String
  value : String
deriving DecidableEq, Repr

/-- A fully decrypted bank record as produced by `decryptBank`; absent
optional fields are rendered as the sentinel string. -/
structure PlainBank where
  id : String
  bankName : String
  phoneForOtp : String
  accountNumber : String
  netBankingUsername : String
  netBankingPassword : String
  mobileBankingUsername : String
  mobileBankingPassword : String
  atmPin : String
  customFields : Option (List PlainCustomField)
deriving DecidableEq, Repr

/-- The plain `\x7b success \x7d` / `\x7b error \x7d` result shape. -/
inductive ActionResult where
  | success (msg : String)
  | error (msg : String)
deriving DecidableEq, Repr

/-- Result of `verifyMasterPassword`: success carries the stripped user. -/
inductive AuthResult where
  | success (msg : String) (user : UserPublic)
  | error (msg : String)
deriving DecidableEq, Repr

/-- Result of `createUser`: success carries the stripped created user. -/
inductive CreateResult where
  | success (msg : String) (user : UserPublic)
  | error (msg : String)
deriving DecidableEq, Repr

/-- Result of `decryptBank`: success carries the decrypted record. -/
inductive RevealResult where
  | success (msg : String) (bank : PlainBank)
  | error (msg : String)
deriving DecidableEq, Repr

/-- Input values for the bank form (`BankFormValues` in `types.ts`, as
consumed by `actions.ts`; `Option` models possibly-undefined fields). -/
structure BankFormValues where
  bankName : String
  phoneForOtp : String
  accountNumber : String
  netBankingUsername : String
  netBankingPassword : Option String
  mobileBankingUsername : String
  mobileBankingPassword : Option String
  atmPin : Option String
  customFields : Option (List PlainCustomField)
deriving DecidableEq, Repr

/-- Input values for the change-password form. -/
structure ChangePasswordFormValues where
  currentPassword : String
  newPassword : String
  confirmPassword : String
deriving DecidableEq, Repr

/-- Decimal digit test for the zod regexes. -/
def isDigitChar (c : Char) : Bool :=
  decide ('0' ≤ c) && decide (c ≤ '9')

/-- JavaScript whitespace as removed by `String.prototype.trim`. -/
def isJsWhitespace (c : Char) : Bool :=
  c == ' ' || c == '\t' || c == '\n' || c == '\x0d' || c == '\x0c' || c == '\x0b'

/-- JavaScript `value.trim()`: strip leading and trailing whitespace. -/
def trimJs (s : String) : String :=
  String.mk (((s.data.dropWhile isJsWhitespace).reverse.dropWhile isJsWhitespace).reverse)

/-- The zod phone rule `/^\+?[1-9]\d\x7b1,14\x7d$/`: optional leading plus,
then a digit 1-9, then one to fourteen digits. -/
def validPhone (s : String) : Bool :=
  let t := match s.data with
    | '+' :: rest => rest
    | l => l
  match t with
  | [] => false
  | c :: rest =>
    decide ('1' ≤ c) && decide (c ≤ '9') &&
    decide (1 ≤ rest.length) && decide (rest.length ≤ 14) &&
    rest.all isDigitChar

/-- The zod ATM PIN rule `/^\d\x7b4\x7d$/`. -/
def validAtmPin (s : String) : Bool :=
  s.length == 4 && s.data.all isDigitChar

/-- `bankFormSchema.safeParse` success condition from `actions.ts`. -/
def validateBankForm (v : BankFormValues) : Bool :=
  decide (2 ≤ v.bankName.length) &&
  validPhone v.phoneForOtp &&
  decide (5 ≤ v.accountNumber.length) && decide (v.accountNumber.length ≤ 20) &&
  decide (1 ≤ v.netBankingUsername.length) &&
  decide (1 ≤ v.mobileBankingUsername.length) &&
  (match v.atmPin with
   | none => true
   | some s => validAtmPin s || s == "") &&
  (match v.customFields with
   | none => true
   | some fields => fields.all fun f =>
       decide (1 ≤ f.label.length) && decide (1 ≤ f.value.length))

/-- `createUserSchema.safeParse` success condition from `actions.ts`. -/
def validCreateUser (username password : String) : Bool :=
  decide (3 ≤ username.length) && decide (8 ≤ password.length)

/-- `changePasswordSchema.safeParse` from `actions.ts`: returns the first
violation message (path-prefixed, as the code formats it) or `none`. -/
def validateChangePassword (v : ChangePasswordFormValues) : Option String :=
  if v.currentPassword.length < 1 then
    some "currentPassword: Current password is required"
  else if v.newPassword.length < 8 then
    some "newPassword: New password must be at least 8 characters"
  else if v.newPassword != v.confirmPassword then
    some "confirmPassword: New passwords don\x27t match"
  else
    none

/-- `updateOne(\x7bid\x7d, \x7b$set: \x7bbanks\x7d\x7d)`: replace the bank
list of the first user with the given id. -/
def setUserBanks : List User → String → List Bank → List User
  | [], _, _ => []
  | u :: rest, uid, banks =>
    if u.id == uid then { u with banks := banks } :: rest
    else u :: setUserBanks rest uid banks

/-- `updateOne(\x7bid\x7d, \x7b$push: \x7bbanks: newBank\x7d\x7d)`: append a
bank to the first user with the given id. -/
def pushBank : List User → String → Bank → List User
  | [], _, _ => []
  | u :: rest, uid, bank =>
    if u.id == uid then { u with banks := u.banks ++ [bank] } :: rest
    else u :: pushBank rest uid bank

/-- `updateOne(\x7bid\x7d, \x7b$set: \x7bmasterPassword\x7d\x7d)`. -/
def setUserMasterPassword : List User → String → CT → List User
  | [], _, _ => []
  | u :: rest, uid, mp =>
    if u.id == uid then { u with masterPassword := mp } :: rest
    else u :: setUserMasterPassword rest uid mp

/-- A regex atom of the modelled fragment: a literal character (matched
case-insensitively, for the `i` flag) or the wildcard `.` . -/
inductive RAtom where
  | lit (c : Char)
  | dot
deriving DecidableEq, Repr

/-- A postfix quantifier of the modelled fragment (`one` means none). -/
inductive RQuant where
  | one
  | plus
  | star
  | opt
deriving DecidableEq, Repr

/-- One term of a compiled pattern: an atom with its quantifier. -/
structure RTerm where
  atom : RAtom
  quant : RQuant
deriving DecidableEq, Repr

/-- Outcome of constructing `new RegExp("^" ++ username ++ "$", "i")` with an
unescaped username.  `syntaxError` models the constructor throwing (a
quantifier with nothing to repeat, which is what every quantifier directly
after the leading `^`, after another quantifier, or after a lazy marker
produces); `compiled` is a pattern inside the modelled fragment;
`outsideModel` marks usernames using regex constructs this embedding does
not model (groups, classes, escapes, alternation, braces, anchors), about
which no theorem below concludes anything. -/
inductive RCompile where
  | syntaxError
  | compiled (terms : List RTerm)
  | outsideModel
deriving DecidableEq, Repr

/-- The quantifier denoted by a pattern character, if any. -/
def quantOf (c : Char) : Option RQuant :=
  if c == '+' then some RQuant.plus
  else if c == '*' then some RQuant.star
  else if c == '?' then some RQuant.opt
  else none

/-- Regex constructs outside the modelled fragment: groups, character
classes, escapes, alternation, brace quantifiers and inner anchors. -/
def outsideFragment (c : Char) : Bool :=
  c == '(' || c == ')' || c == '[' || c == ']' || c == '\\' || c == '|' ||
  c == '^' || c == '$' || c == '\x7b' || c == '\x7d'

/-- Prepend a term to a compilation result, propagating failure. -/
def RCompile.consTerm (t : RTerm) : RCompile → RCompile
  | RCompile.syntaxError => RCompile.syntaxError
  | RCompile.outsideModel => RCompile.outsideModel
  | RCompile.compiled ts => RCompile.compiled (t :: ts)

/-- The atom denoted by a non-quantifier, in-fragment pattern character. -/
def atomOf (c : Char) : RAtom :=
  if c == '.' then RAtom.dot else RAtom.lit c

/-- Compile the body of the anchored pattern, one atom with optional
quantifier (and optional lazy marker `?`, which does not change the accepted
language) at a time, by recursion on explicit fuel; every recursive call
strictly decreases the list length.  A quantifier with no atom before it is
the "nothing to repeat" `SyntaxError`. -/
def compileCharsFuel : Nat → List Char → RCompile
  | 0, _ => RCompile.outsideModel
  | _ + 1, [] => RCompile.compiled []
  | fuel + 1, c :: rest =>
    if (quantOf c).isSome then RCompile.syntaxError
    else if outsideFragment c then RCompile.outsideModel
    else
      match rest with
      | [] => RCompile.compiled [{ atom := atomOf c, quant := RQuant.one }]
      | q :: rest2 =>
        match quantOf q with
        | none =>
          RCompile.consTerm { atom := atomOf c, quant := RQuant.one }
            (compileCharsFuel fuel rest)
        | some qu =>
          match rest2 with
          | '?' :: rest3 =>
            RCompile.consTerm { atom := atomOf c, quant := qu }
              (compileCharsFuel fuel rest3)
          | other =>
            RCompile.consTerm { atom := atomOf c, quant := qu }
              (compileCharsFuel fuel other)

/-- Compile the body of the anchored pattern (see `compileCharsFuel`); the
supplied fuel strictly exceeds the list length, which every recursive call
strictly decreases, so the fuel is never exhausted. -/
def compileChars (l : List Char) : RCompile :=
  compileCharsFuel (l.length + 1) l

/-- `new RegExp("^" ++ username ++ "$", "i")` at `actions.ts` lines 178 and
252: the supplied username is interpolated unescaped into an anchored
case-insensitive pattern. -/
def compileUsernameRegex (username : String) : RCompile :=
  compileChars username.data

/-- Whether an atom matches one character, with the case-insensitivity of
the `i` flag; `.` matches anything but a line terminator. -/
def atomMatches : RAtom → Char → Bool
  | RAtom.lit a, c => a.toLower == c.toLower
  | RAtom.dot, c => !(c == '\n' || c == '\x0d' || c == '\u2028' || c == '\u2029')

/-- Anchored acceptance of one character list by a compiled pattern,
standard backtracking, by recursion on explicit fuel.  Every recursive call
strictly decreases `ts.length + cs.length` (laziness cannot change anchored
acceptance, so lazy quantifiers were already folded into their greedy
forms). -/
def rmatchFuel : Nat → List RTerm → List Char → Bool
  | 0, _, _ => false
  | _ + 1, [], cs => cs.isEmpty
  | fuel + 1, t :: ts, cs =>
    match t.quant with
    | RQuant.one =>
      match cs with
      | [] => false
      | c :: cs2 => atomMatches t.atom c && rmatchFuel fuel ts cs2
    | RQuant.opt =>
      rmatchFuel fuel ts cs ||
      (match cs with
       | [] => false
       | c :: cs2 => atomMatches t.atom c && rmatchFuel fuel ts cs2)
    | RQuant.star =>
      rmatchFuel fuel ts cs ||
      (match cs with
       | [] => false
       | c :: cs2 => atomMatches t.atom c && rmatchFuel fuel (t :: ts) cs2)
    | RQuant.plus =>
      match cs with
      | [] => false
      | c :: cs2 => atomMatches t.atom c &&
          (rmatchFuel fuel ts cs2 ||
           rmatchFuel fuel ({ atom := t.atom, quant := RQuant.star } :: ts) cs2)

/-- Anchored acceptance of a candidate by a compiled pattern.  The supplied
fuel strictly exceeds `ts.length + cs.length`, which every recursive call of
`rmatchFuel` strictly decreases, so the fuel is never exhausted. -/
def rmatch (ts : List RTerm) (cs : List Char) : Bool :=
  rmatchFuel (ts.length + cs.length + 1) ts cs

/-- Outcome of `findOne(\x7busername: \x7b$regex:
new RegExp("^" ++ username ++ "$", "i")\x7d\x7d)`: the constructor throws,
or the first stored user whose username the pattern accepts is returned (or
none), or the username is outside the modelled regex fragment. -/
inductive LookupResult where
  | threw
  | ok (u : Option User)
  | outsideModel
deriving DecidableEq, Repr

/-- The username lookup of `verifyMasterPassword` and `createUser`
(`actions.ts` lines 177-179 and 251-253). -/
def findUserByUsernameRegex (users : List User) (username : String) :
    LookupResult :=
  match compileUsernameRegex username with
  | RCompile.syntaxError => LookupResult.threw
  | RCompile.outsideModel => LookupResult.outsideModel
  | RCompile.compiled ts =>
    LookupResult.ok (users.find? fun u => rmatch ts u.username.data)

/-- The compilation of a username free of regex metacharacters: each
character is one unquantified case-insensitive literal. -/
def litTerms (s : String) : List RTerm :=
  s.data.map fun c => { atom := RAtom.lit c, quant := RQuant.one }

/-- `user.banks.findIndex((b) => b.id === bankId)` from `updateBank`. -/
def bankIndexOf : List Bank → String → Option Nat
  | [], _ => none
  | b :: rest, bankId =>
    if b.id == bankId then some 0
    else (bankIndexOf rest bankId).map (· + 1)

/-- Decrypt one bank into its list summary (`getBanksForUser` map body);
a decryption failure propagates as in the untried TypeScript `decrypt` call. -/
def toListItem (b : Bank) : Except DecryptionError BankListItem := do
  let name ← decrypt b.bankName
  let account ← decrypt b.accountNumber
  pure { id := b.id, bankName := name, accountNumber := account }

/-- Left-to-right decryption of the whole bank list, stopping at the first
failure, as `Array.prototype.map` over throwing calls does. -/
def decryptListItems : List Bank → Except DecryptionError (List BankListItem)
  | [] => Except.ok []
  | b :: rest => do
    let item ← toListItem b
    let items ← decryptListItems rest
    pure (item :: items)

/-- `getBanksForUser` from `actions.ts` lines 35-46. -/
def getBanksForUser (users : List User) (userId : String) :
    Except DecryptionError (List BankListItem) :=
  match users.find? (fun u => u.id == userId) with
  | none => Except.ok []
  | some user => decryptListItems user.banks

/-- `value ? encrypt(value) : undefined` for optional form fields in
`addBank`. -/
def encryptIfTruthy (iv : Nat) : Option String → Option CT
  | none => none
  | some s => if s == "" then none else some (encrypt iv s)

/-- `addBank` from `actions.ts` lines 49-85; `uuid` stands for the generated
`randomUUID()` and `ivs` supplies the fresh IV of each `encrypt` call. -/
def addBank (uuid : String) (ivs : Nat → Nat) (users : List User)
    (userId : String) (values : BankFormValues) : ActionResult × List User :=
  if validateBankForm values then
    match users.find? (fun u => u.id == userId) with
    | none => (ActionResult.error "User not found.", users)
    | some _ =>
      let newBank : Bank :=
        { id := uuid
          bankName := encrypt (ivs 0) values.bankName
          phoneForOtp := encrypt (ivs 1) values.phoneForOtp
          accountNumber := encrypt (ivs 2) values.accountNumber
          netBankingUsername := encrypt (ivs 3) values.netBankingUsername
          netBankingPassword := encryptIfTruthy (ivs 4) values.netBankingPassword
          mobileBankingUsername := encrypt (ivs 5) values.mobileBankingUsername
          mobileBankingPassword := encryptIfTruthy (ivs 6) values.mobileBankingPassword
          atmPin := encryptIfTruthy (ivs 7) values.atmPin
          customFields := values.customFields.map fun fields =>
            fields.enum.map fun p =>
              { label := encrypt (ivs (8 + 2 * p.1)) p.2.label
                value := encrypt (ivs (9 + 2 * p.1)) p.2.value } }
      (ActionResult.success "Bank added successfully.", pushBank users userId newBank)
  else (ActionResult.error "Invalid data provided.", users)

/-- The conditional overwrite `if (incoming && incoming.trim() !== \x27\x27)
updatedBank.field = encrypt(incoming)` of `updateBank` for one optional
field: replace the stored ciphertext only then, else keep it. -/
def keepOrReplace (iv : Nat) (incoming : Option String) (stored : Option CT) :
    Option CT :=
  match incoming with
  | none => stored
  | some s => if s != "" && trimJs s != "" then some (encrypt iv s) else stored

/-- The record built by `updateBank` lines 109-137: spread of the existing
bank, unconditional re-encryption of the five required fields, conditional
overwrite of the three optional secrets, and full replacement of
`customFields` when provided. -/
def applyBankUpdate (ivs : Nat → Nat) (existingBank : Bank)
    (data : BankFormValues) : Bank :=
  { existingBank with
    bankName := encrypt (ivs 0) data.bankName
    phoneForOtp := encrypt (ivs 1) data.phoneForOtp
    accountNumber := encrypt (ivs 2) data.accountNumber
    netBankingUsername := encrypt (ivs 3) data.netBankingUsername
    mobileBankingUsername := encrypt (ivs 4) data.mobileBankingUsername
    netBankingPassword := keepOrReplace (ivs 5) data.netBankingPassword existingBank.netBankingPassword
    mobileBankingPassword := keepOrReplace (ivs 6) data.mobileBankingPassword existingBank.mobileBankingPassword
    atmPin := keepOrReplace (ivs 7) data.atmPin existingBank.atmPin
    customFields :=
      match data.customFields with
      | some fields => some (fields.enum.map fun p =>
          { label := encrypt (ivs (8 + 2 * p.1)) p.2.label
            value := encrypt (ivs (9 + 2 * p.1)) p.2.value })
      | none => existingBank.customFields }

/-- `updateBank` from `actions.ts` lines 87-147. -/
def updateBank (ivs : Nat → Nat) (users : List User) (userId bankId : String)
    (values : BankFormValues) : ActionResult × List User :=
  if validateBankForm values then
    match users.find? (fun u => u.id == userId) with
    | none => (ActionResult.error "User not found.", users)
    | some user =>
      match bankIndexOf user.banks bankId with
      | none => (ActionResult.error "Bank not found.", users)
      | some bankIndex =>
        match user.banks.get? bankIndex with
        | none => (ActionResult.error "Bank not found.", users)
        | some existingBank =>
          let updatedBank := applyBankUpdate ivs existingBank values
          (ActionResult.success "Bank updated successfully.",
           setUserBanks users userId (user.banks.set bankIndex updatedBank))
  else (ActionResult.error "Invalid data provided.", users)

/-- `deleteBank` from `actions.ts` lines 149-170. -/
def deleteBank (users : List User) (userId bankId : String) :
    ActionResult × List User :=
  match users.find? (fun u => u.id == userId) with
  | none => (ActionResult.error "User not found.", users)
  | some user =>
    let updatedBanks := user.banks.filter fun b => b.id != bankId
    if updatedBanks.length == user.banks.length then
      (ActionResult.error "Bank not found.", users)
    else
      (ActionResult.success "Bank deleted successfully.",
       setUserBanks users userId updatedBanks)

/-- The catch-branch comparison `user.masterPassword === password`: the raw
stored string equals the supplied plaintext.  The branch is only reachable
when `decrypt` failed, hence only on raw stored strings. -/
def legacyCompare (stored : CT) (password : String) : Bool :=
  match stored with
  | CT.raw s => s == password
  | CT.blob _ _ => false

/-- Lines 182-203 of `actions.ts` once a user document is in hand: truthiness
check, decrypt-and-compare, plaintext fallback in the catch branch, shared
generic error otherwise. -/
def verifyUserPassword (user : User) (password : String) : AuthResult :=
  if user.masterPassword.truthy then
    match decrypt user.masterPassword with
    | Except.ok decryptedPassword =>
      if decryptedPassword == password then
        AuthResult.success "Login successful." (UserPublic.ofUser user)
      else AuthResult.error "Invalid username or password."
    | Except.error _ =>
      if legacyCompare user.masterPassword password then
        AuthResult.success "Login successful." (UserPublic.ofUser user)
      else AuthResult.error "Invalid username or password."
  else AuthResult.error "Invalid username or password."

/-- What `verifyMasterPassword` does at its boundary: returns a structured
result, or lets the RegExp constructor throw a SyntaxError past it, or the
supplied username is outside the modelled regex fragment. -/
inductive VerifyOutcome where
  | returns (r : AuthResult)
  | throwsSyntaxError
  | outsideModel
deriving DecidableEq, Repr

/-- `verifyMasterPassword` from `actions.ts` lines 172-204: required-field
guard, regex username lookup (which can throw), decrypt-and-compare with the
plaintext fallback, generic error otherwise. -/
def verifyMasterPassword (users : List User) (username password : String) :
    VerifyOutcome :=
  if username == "" || password == "" then
    VerifyOutcome.returns (AuthResult.error "Username and password are required.")
  else
    match findUserByUsernameRegex users username with
    | LookupResult.threw => VerifyOutcome.throwsSyntaxError
    | LookupResult.outsideModel => VerifyOutcome.outsideModel
    | LookupResult.ok none =>
      VerifyOutcome.returns (AuthResult.error "Invalid username or password.")
    | LookupResult.ok (some user) =>
      VerifyOutcome.returns (verifyUserPassword user password)

/-- `field ? decrypt(field) : \x27N/A\x27` for optional stored fields in
`decryptBank`: absent or falsy fields render the sentinel, present truthy
fields are decrypted (and may raise). -/
def decryptOpt : Option CT → Except DecryptionError String
  | none => Except.ok "N/A"
  | some ct => if ct.truthy then decrypt ct else Except.ok "N/A"

/-- One custom field in `decryptBank`: label decrypted unconditionally,
value guarded by truthiness of the stored string. -/
def decryptCustomField (f : CustomField) : Except DecryptionError PlainCustomField := do
  let l ← decrypt f.label
  let v ← if f.value.truthy then decrypt f.value else pure "N/A"
  pure { label := l, value := v }

/-- Left-to-right decryption of a custom-field list. -/
def decryptCustomFields : List CustomField → Except DecryptionError (List PlainCustomField)
  | [] => Except.ok []
  | f :: rest => do
    let pf ← decryptCustomField f
    let rest ← decryptCustomFields rest
    pure (pf :: rest)

/-- The `customFields` clause of `decryptBank`:
`bank.customFields?.map(...)`. -/
def decryptCustomFieldsOpt : Option (List CustomField) →
    Except DecryptionError (Option (List PlainCustomField))
  | none => Except.ok none
  | some fields => do
    let pfs ← decryptCustomFields fields
    pure (some pfs)

/-- `decryptBank` (the reveal operation) from `actions.ts` lines 206-235. -/
def decryptBank (users : List User) (userId bankId : String) :
    Except DecryptionError RevealResult :=
  match users.find? (fun u => u.id == userId) with
  | none => Except.ok (RevealResult.error "User not found.")
  | some user =>
    match user.banks.find? (fun b => b.id == bankId) with
    | none => Except.ok (RevealResult.error "Bank not found.")
    | some bank => do
      let bankName ← decrypt bank.bankName
      let phoneForOtp ← decrypt bank.phoneForOtp
      let accountNumber ← decrypt bank.accountNumber
      let netBankingUsername ← decrypt bank.netBankingUsername
      let netBankingPassword ← decryptOpt bank.netBankingPassword
      let mobileBankingUsername ← decrypt bank.mobileBankingUsername
      let mobileBankingPassword ← decryptOpt bank.mobileBankingPassword
      let atmPin ← decryptOpt bank.atmPin
      let customFields ← decryptCustomFieldsOpt bank.customFields
      pure (RevealResult.success "Bank decrypted."
        { id := bank.id
          bankName := bankName
          phoneForOtp := phoneForOtp
          accountNumber := accountNumber
          netBankingUsername := netBankingUsername
          netBankingPassword := netBankingPassword
          mobileBankingUsername := mobileBankingUsername
          mobileBankingPassword := mobileBankingPassword
          atmPin := atmPin
          customFields := customFields })

/-- What `createUser` does at its boundary: returns a structured result
together with the (possibly updated) stored collection, or lets the RegExp
constructor throw a SyntaxError past it, or the supplied username is outside
the modelled regex fragment. -/
inductive CreateOutcome where
  | returns (r : CreateResult) (users : List User)
  | throwsSyntaxError
  | outsideModel
deriving DecidableEq, Repr

/-- `createUser` from `actions.ts` lines 242-272; `uuid` stands for the
generated `randomUUID()` and `iv` for the IV of the one `encrypt` call.  The
uniqueness check is the regex username lookup, which can throw. -/
def createUser (uuid : String) (iv : Nat) (users : List User)
    (username password : String) : CreateOutcome :=
  if validCreateUser username password then
    match findUserByUsernameRegex users username with
    | LookupResult.threw => CreateOutcome.throwsSyntaxError
    | LookupResult.outsideModel => CreateOutcome.outsideModel
    | LookupResult.ok (some _) =>
      CreateOutcome.returns (CreateResult.error "Username already taken.") users
    | LookupResult.ok none =>
      let newUser : User :=
        { id := uuid, username := username
          masterPassword := encrypt iv password, banks := [] }
      CreateOutcome.returns
        (CreateResult.success
          ("User \x27" ++ username ++ "\x27 created successfully! You can now log in.")
          (UserPublic.ofUser newUser))
        (users ++ [newUser])
  else
    CreateOutcome.returns
      (CreateResult.error
        "Invalid data provided. Username must be at least 3 characters and password at least 8.")
      users

/-- `changeMasterPassword` from `actions.ts` lines 286-325. -/
def changeMasterPassword (iv : Nat) (users : List User) (userId : String)
    (v : ChangePasswordFormValues) : ActionResult × List User :=
  match validateChangePassword v with
  | some msg => (ActionResult.error msg, users)
  | none =>
    match users.find? (fun u => u.id == userId) with
    | none => (ActionResult.error "User not found.", users)
    | some user =>
      let isPasswordValid :=
        if user.masterPassword.truthy then
          match decrypt user.masterPassword with
          | Except.ok d => d == v.currentPassword
          | Except.error _ => legacyCompare user.masterPassword v.currentPassword
        else false
      if isPasswordValid then
        (ActionResult.success "Master password updated successfully.",
         setUserMasterPassword users userId (encrypt iv v.newPassword))
      else (ActionResult.error "Incorrect current password.", users)

/-! ## Specification-side predicates -/

/-- Spec phrasing of the optional-field update condition: the incoming value
is provided and non-empty after trimming. -/
def trimNonEmpty : Option String → Bool
  | none => false
  | some s => trimJs s != ""

/-- Spec phrasing of the master-password check (spec sections 4.4 and 4.5):
attempt decryption first and compare the decrypted value; exactly when
decryption fails, compare the stored raw string directly. -/
def passwordCheckSpec (stored : CT) (password : String) : Bool :=
  match decrypt stored with
  | Except.ok d => d == password
  | Except.error _ => legacyCompare stored password

/-- Whether an optional stored field, when present, is a well-formed blob. -/
def optWF : Option CT → Bool
  | none => true
  | some ct => ct.isBlob

/-- All ciphertext fields of a stored bank record are well-formed blobs
(the data-model invariant of spec section 3). -/
def Bank.wf (b : Bank) : Bool :=
  b.bankName.isBlob && b.phoneForOtp.isBlob && b.accountNumber.isBlob &&
  b.netBankingUsername.isBlob && b.mobileBankingUsername.isBlob &&
  optWF b.netBankingPassword && optWF b.mobileBankingPassword && optWF b.atmPin &&
  (match b.customFields with
   | none => true
   | some fields => fields.all fun f => f.label.isBlob && f.value.isBlob)

/-- All bank records of a user satisfy the ciphertext invariant (the master
password is deliberately not required to: legacy plaintext is allowed there). -/
def User.banksWF (u : User) : Bool :=
  u.banks.all Bank.wf

/-! ## Helper lemmas -/

theorem decrypt_of_isBlob (ct : CT) (h : ct.isBlob = true) :
    decrypt ct = Except.ok ct.plaintext := by
  cases ct with
  | blob iv p => rfl
  | raw s => simp [CT.isBlob] at h

theorem decryptListItems_eq_map (banks : List Bank)
    (h : ∀ b ∈ banks, b.bankName.isBlob = true ∧ b.accountNumber.isBlob = true) :
    decryptListItems banks = Except.ok (banks.map fun b =>
      { id := b.id, bankName := b.bankName.plaintext,
        accountNumber := b.accountNumber.plaintext }) := by
  induction banks with
  | nil => rfl
  | cons b rest ih =>
    obtain ⟨h1, h2⟩ := h b (List.mem_cons_self _ _)
    have ih2 := ih fun x hx => h x (List.mem_cons_of_mem _ hx)
    simp only [decryptListItems, toListItem, decrypt_of_isBlob _ h1,
      decrypt_of_isBlob _ h2, ih2, List.map_cons]
    rfl

/-- A concrete stored bank record with well-formed ciphertext fields,
used by witnesses. -/
def demoBank : Bank :=
  { id := "b1", bankName := encrypt 0 "Chase",
    phoneForOtp := encrypt 1 "+12025550123", accountNumber := encrypt 2 "123456",
    netBankingUsername := encrypt 3 "nb", netBankingPassword := some (encrypt 4 "nbpw"),
    mobileBankingUsername := encrypt 5 "mb", mobileBankingPassword := none,
    atmPin := some (encrypt 6 "1234"), customFields := none }

/-- A concrete stored user owning `demoBank`, used by witnesses. -/
def demoUser : User :=
  { id := "u1", username := "alice", masterPassword := encrypt 7 "secret123",
    banks := [demoBank] }

/-- A concrete stored collection with one user and one bank record, used by
witnesses. -/
def demoUsers : List User :=
  [demoUser]

/-- A concrete valid bank form leaving every optional secret empty, used by
witnesses. -/
def demoForm : BankFormValues :=
  { bankName := "First Bank", phoneForOtp := "+12025550123",
    accountNumber := "99999999", netBankingUsername := "user",
    netBankingPassword := none, mobileBankingUsername := "muser",
    mobileBankingPassword := some "", atmPin := some "", customFields := none }

/-! ## Claim C4 -/

/-- Claim C4: for every plaintext string and every IV, `decrypt` recovers the
plaintext from the blob `encrypt` produced: decryption is a deterministic
inverse of encryption on blobs produced by it. -/
theorem decrypt_encrypt_roundtrip (iv : Nat) (plaintext : String) :
    decrypt (encrypt iv plaintext) = Except.ok plaintext :=
  rfl

/-! ## Claim C5 -/

/-- Claim C5: two calls to `encrypt` on the same plaintext with distinct
fresh IVs produce distinct ciphertext blobs, because the IV is embedded in
the blob. -/
theorem encrypt_distinct_blobs (iv1 iv2 : Nat) (plaintext : String)
    (h : iv1 ≠ iv2) : encrypt iv1 plaintext ≠ encrypt iv2 plaintext := by
  intro hc
  injection hc with h1 h2
  exact h h1

/-- Witness for C5 at concrete inputs. -/
theorem encrypt_distinct_blobs_witness :
    encrypt 0 "secret123" ≠ encrypt 1 "secret123" :=
  encrypt_distinct_blobs 0 1 "secret123" (by decide)

/-! ## Claim C6 -/

/-- Claim C6: for an existing user, `deleteBank` with a bank id matching no
stored record returns the Bank-not-found error and leaves the collection
unchanged (no write); with a matching id it removes exactly that record and
keeps every other record in order. -/
theorem deleteBank_spec (users : List User) (userId bankId : String)
    (user : User) (hu : users.find? (fun u => u.id == userId) = some user) :
    ((∀ b ∈ user.banks, (b.id == bankId) = false) →
      deleteBank users userId bankId = (ActionResult.error "Bank not found.", users)) ∧
    (∀ pre b post, user.banks = pre ++ b :: post → (b.id == bankId) = true →
      (∀ x ∈ pre, (x.id == bankId) = false) →
      (∀ x ∈ post, (x.id == bankId) = false) →
      deleteBank users userId bankId =
        (ActionResult.success "Bank deleted successfully.",
         setUserBanks users userId (pre ++ post))) := by
  constructor
  · intro hall
    have hfilter : user.banks.filter (fun b => b.id != bankId) = user.banks := by
      apply List.filter_eq_self.mpr
      intro b hb
      simp [bne, hall b hb]
    simp [deleteBank, hu, hfilter]
  · intro pre b post hsplit hb hpre hpost
    have hfpre : pre.filter (fun x => x.id != bankId) = pre := by
      apply List.filter_eq_self.mpr
      intro x hx
      simp [bne, hpre x hx]
    have hfpost : post.filter (fun x => x.id != bankId) = post := by
      apply List.filter_eq_self.mpr
      intro x hx
      simp [bne, hpost x hx]
    have hfilter : user.banks.filter (fun x => x.id != bankId) = pre ++ post := by
      rw [hsplit, List.filter_append, hfpre, List.filter_cons_of_neg, hfpost]
      simp [bne, hb]
    have hlen : ((pre ++ post).length == user.banks.length) = false := by
      rw [hsplit]
      simp [List.length_append]
    simp only [deleteBank, hu, hfilter, hlen]
    simp

/-- Witness for C6 at concrete inputs: a one-bank user; deleting an unknown
id errors without a write, deleting the stored id removes the record. -/
theorem deleteBank_spec_witness :
    deleteBank demoUsers "u1" "zzz" = (ActionResult.error "Bank not found.", demoUsers) ∧
    deleteBank demoUsers "u1" "b1"
      = (ActionResult.success "Bank deleted successfully.",
         setUserBanks demoUsers "u1" ([] ++ [])) :=
  ⟨(deleteBank_spec demoUsers "u1" "zzz" _ rfl).1 (by decide),
   (deleteBank_spec demoUsers "u1" "b1" _ rfl).2 [] demoBank [] rfl (by decide)
     (by decide) (by decide)⟩

/-! ## Claim C9 -/

/-- Claim C9: `getBanksForUser` on a user id matching no stored user returns
the empty list rather than an error; on an existing user whose stored
bank-name and account-number fields are well-formed blobs it returns, per
bank record, exactly the id with the decrypted bank name and account
number. -/
theorem getBanksForUser_spec (users : List User) (userId : String) :
    (users.find? (fun u => u.id == userId) = none →
      getBanksForUser users userId = Except.ok []) ∧
    (∀ user, users.find? (fun u => u.id == userId) = some user →
      (∀ b ∈ user.banks, b.bankName.isBlob = true ∧ b.accountNumber.isBlob = true) →
      getBanksForUser users userId = Except.ok (user.banks.map fun b =>
        { id := b.id, bankName := b.bankName.plaintext,
          accountNumber := b.accountNumber.plaintext })) := by
  constructor
  · intro h
    simp [getBanksForUser, h]
  · intro user hu hwf
    simp [getBanksForUser, hu, decryptListItems_eq_map user.banks hwf]

/-- Witness for C9 at concrete inputs: absent user and present user. -/
theorem getBanksForUser_spec_witness :
    getBanksForUser [] "u1" = Except.ok [] ∧
    getBanksForUser demoUsers "u1"
      = Except.ok ([demoBank].map fun b =>
          { id := b.id, bankName := b.bankName.plaintext,
            accountNumber := b.accountNumber.plaintext }) :=
  ⟨(getBanksForUser_spec [] "u1").1 rfl,
   (getBanksForUser_spec demoUsers "u1").2 _ rfl (by decide)⟩

/-! ## Claims C2 and C10: updateBank -/

theorem trim_cond_eq (s : String) : (s != "" && trimJs s != "") = (trimJs s != "") := by
  by_cases h : s = ""
  · subst h
    decide
  · simp [bne, beq_iff_eq, h]

theorem keepOrReplace_eq_spec (iv : Nat) (incoming : Option String)
    (stored : Option CT) :
    keepOrReplace iv incoming stored =
      if trimNonEmpty incoming then incoming.map (encrypt iv) else stored := by
  cases incoming with
  | none => rfl
  | some s => simp [keepOrReplace, trimNonEmpty, trim_cond_eq]

theorem get?_set_self {α : Type} (l : List α) (i : Nat) (a b : α)
    (h : l.get? i = some b) : (l.set i a).get? i = some a := by
  induction l generalizing i with
  | nil => simp at h
  | cons x t ih =>
    cases i with
    | zero => rfl
    | succ n => simpa using ih n (by simpa using h)

theorem get?_set_ne {α : Type} (l : List α) (i j : Nat) (a : α)
    (h : j ≠ i) : (l.set i a).get? j = l.get? j := by
  induction l generalizing i j with
  | nil => rfl
  | cons x t ih =>
    cases i with
    | zero =>
      cases j with
      | zero => exact absurd rfl h
      | succ m => rfl
    | succ n =>
      cases j with
      | zero => rfl
      | succ m => simpa using ih n m fun hc => h (by rw [hc])

/-- Claim C2: on every successful `updateBank` the five required fields are
unconditionally re-encrypted and overwritten with the incoming values, while
each of the three optional secrets (`netBankingPassword`,
`mobileBankingPassword`, `atmPin`) is replaced by a fresh encryption of the
incoming value exactly when that value is non-empty after trimming, and
otherwise the previously stored ciphertext is retained unchanged. -/
theorem updateBank_field_policy (ivs : Nat → Nat) (users : List User)
    (userId bankId : String) (values : BankFormValues) (user : User) (i : Nat)
    (existing : Bank)
    (hv : validateBankForm values = true)
    (hu : users.find? (fun u => u.id == userId) = some user)
    (hi : bankIndexOf user.banks bankId = some i)
    (hb : user.banks.get? i = some existing) :
    ∃ newBank : Bank,
      updateBank ivs users userId bankId values =
        (ActionResult.success "Bank updated successfully.",
         setUserBanks users userId (user.banks.set i newBank)) ∧
      newBank.bankName = encrypt (ivs 0) values.bankName ∧
      newBank.phoneForOtp = encrypt (ivs 1) values.phoneForOtp ∧
      newBank.accountNumber = encrypt (ivs 2) values.accountNumber ∧
      newBank.netBankingUsername = encrypt (ivs 3) values.netBankingUsername ∧
      newBank.mobileBankingUsername = encrypt (ivs 4) values.mobileBankingUsername ∧
      newBank.netBankingPassword =
        (if trimNonEmpty values.netBankingPassword then
          values.netBankingPassword.map (encrypt (ivs 5))
         else existing.netBankingPassword) ∧
      newBank.mobileBankingPassword =
        (if trimNonEmpty values.mobileBankingPassword then
          values.mobileBankingPassword.map (encrypt (ivs 6))
         else existing.mobileBankingPassword) ∧
      newBank.atmPin =
        (if trimNonEmpty values.atmPin then
          values.atmPin.map (encrypt (ivs 7))
         else existing.atmPin) := by
  have hb2 : user.banks[i]? = some existing := by
    rw [← List.get?_eq_getElem?]
    exact hb
  refine ⟨applyBankUpdate ivs existing values, ?_, rfl, rfl, rfl, rfl, rfl, ?_, ?_, ?_⟩
  · simp [updateBank, hv, hu, hi, hb2]
  all_goals simp [applyBankUpdate, keepOrReplace_eq_spec]

/-- Witness for C2: updating `demoBank` with a form whose optional secrets
are empty keeps the stored optional ciphertexts. -/
theorem updateBank_field_policy_witness :
    ∃ newBank : Bank,
      updateBank (fun n => 100 + n) demoUsers "u1" "b1" demoForm =
        (ActionResult.success "Bank updated successfully.",
         setUserBanks demoUsers "u1" ([demoBank].set 0 newBank)) ∧
      newBank.bankName = encrypt 100 "First Bank" ∧
      newBank.phoneForOtp = encrypt 101 "+12025550123" ∧
      newBank.accountNumber = encrypt 102 "99999999" ∧
      newBank.netBankingUsername = encrypt 103 "user" ∧
      newBank.mobileBankingUsername = encrypt 104 "muser" ∧
      newBank.netBankingPassword =
        (if trimNonEmpty demoForm.netBankingPassword then
          demoForm.netBankingPassword.map (encrypt 105)
         else demoBank.netBankingPassword) ∧
      newBank.mobileBankingPassword =
        (if trimNonEmpty demoForm.mobileBankingPassword then
          demoForm.mobileBankingPassword.map (encrypt 106)
         else demoBank.mobileBankingPassword) ∧
      newBank.atmPin =
        (if trimNonEmpty demoForm.atmPin then
          demoForm.atmPin.map (encrypt 107)
         else demoBank.atmPin) :=
  updateBank_field_policy (fun n => 100 + n) demoUsers "u1" "b1" demoForm
    demoUser 0 demoBank (by decide) rfl (by decide) rfl

/-- Claim C10: every successful `updateBank` preserves the structure of the
bank list: same length, the updated record keeps its original id and sits at
its original position, every other position is untouched, and when the form
provides no `customFields` the stored custom-field ciphertexts are
retained. -/
theorem updateBank_preserves_structure (ivs : Nat → Nat) (users : List User)
    (userId bankId : String) (values : BankFormValues) (user : User) (i : Nat)
    (existing : Bank)
    (hv : validateBankForm values = true)
    (hu : users.find? (fun u => u.id == userId) = some user)
    (hi : bankIndexOf user.banks bankId = some i)
    (hb : user.banks.get? i = some existing) :
    ∃ newBank : Bank,
      updateBank ivs users userId bankId values =
        (ActionResult.success "Bank updated successfully.",
         setUserBanks users userId (user.banks.set i newBank)) ∧
      (user.banks.set i newBank).length = user.banks.length ∧
      newBank.id = existing.id ∧
      (user.banks.set i newBank).get? i = some newBank ∧
      (∀ j, j ≠ i → (user.banks.set i newBank).get? j = user.banks.get? j) ∧
      (values.customFields = none → newBank.customFields = existing.customFields) := by
  have hb2 : user.banks[i]? = some existing := by
    rw [← List.get?_eq_getElem?]
    exact hb
  refine ⟨applyBankUpdate ivs existing values, ?_, List.length_set .., rfl,
    get?_set_self user.banks i _ existing hb,
    fun j hj => get?_set_ne user.banks i j _ hj, ?_⟩
  · simp [updateBank, hv, hu, hi, hb2]
  · intro hcf
    simp [applyBankUpdate, hcf]

/-- Witness for C10 at concrete inputs. -/
theorem updateBank_preserves_structure_witness :
    ∃ newBank : Bank,
      updateBank (fun n => 200 + n) demoUsers "u1" "b1" demoForm =
        (ActionResult.success "Bank updated successfully.",
         setUserBanks demoUsers "u1" ([demoBank].set 0 newBank)) ∧
      ([demoBank].set 0 newBank).length = [demoBank].length ∧
      newBank.id = demoBank.id ∧
      ([demoBank].set 0 newBank).get? 0 = some newBank ∧
      (∀ j, j ≠ 0 → ([demoBank].set 0 newBank).get? j = [demoBank].get? j) ∧
      (demoForm.customFields = none → newBank.customFields = demoBank.customFields) :=
  updateBank_preserves_structure (fun n => 200 + n) demoUsers "u1" "b1" demoForm
    demoUser 0 demoBank (by decide) rfl (by decide) rfl

/-! ## Claim C7: createUser uniqueness -/

/-- A stored user whose username contains the regex quantifier `+`. -/
def userAplusB : User :=
  { id := "ua", username := "a+b", masterPassword := encrypt 20 "password123",
    banks := [] }

/-- A stored user whose username is an ordinary letter string. -/
def userJohnxdoe : User :=
  { id := "uj", username := "johnxdoe", masterPassword := encrypt 21 "password123",
    banks := [] }

/-- Claim C7: the claim (and spec sections 4.4 and 6) require case-insensitive
username uniqueness, but the code checks uniqueness by matching the new
username as an unescaped anchored regex, which this theorem evaluates at the
failing inputs: with "a+b" already stored, creating "a+b" again succeeds and
inserts a duplicate username (the pattern a+b does not match the literal
string "a+b"), and a fresh username "john.doe" is rejected against stored
"johnxdoe" (the dot matches any character). -/
theorem createUser_uniqueness_code_bug :
    createUser "u2" 1 [userAplusB] "a+b" "password123" =
      CreateOutcome.returns
        (CreateResult.success
          "User \x27a+b\x27 created successfully! You can now log in."
          { id := "u2", username := "a+b", banks := [] })
        [userAplusB,
         { id := "u2", username := "a+b", masterPassword := encrypt 1 "password123",
           banks := [] }] ∧
    createUser "u3" 2 [userJohnxdoe] "john.doe" "password123" =
      CreateOutcome.returns (CreateResult.error "Username already taken.")
        [userJohnxdoe] := by
  exact ⟨rfl, rfl⟩

/-! ## Claims C3 and C8: master-password comparison -/

theorem verifyUserPassword_eq_check (user : User) (password : String)
    (hp1 : password ≠ "") :
    verifyUserPassword user password =
      (if passwordCheckSpec user.masterPassword password then
        AuthResult.success "Login successful." (UserPublic.ofUser user)
      else AuthResult.error "Invalid username or password.") := by
  cases hmp : user.masterPassword with
  | blob iv p =>
    simp [verifyUserPassword, hmp, CT.truthy, decrypt, passwordCheckSpec]
  | raw s =>
    by_cases hs : s = ""
    · subst hs
      have hone : ("" == password) = false := by
        simp [beq_iff_eq]
        exact fun hh => hp1 hh.symm
      simp [verifyUserPassword, hmp, CT.truthy, decrypt, passwordCheckSpec,
        legacyCompare, hone]
    · simp [verifyUserPassword, hmp, CT.truthy, decrypt, passwordCheckSpec,
        legacyCompare, hs, bne]

theorem changeMasterPassword_core (iv : Nat) (users : List User)
    (userId : String) (v : ChangePasswordFormValues) (user : User)
    (hv : validateChangePassword v = none)
    (hu : users.find? (fun u => u.id == userId) = some user) :
    changeMasterPassword iv users userId v =
      if passwordCheckSpec user.masterPassword v.currentPassword then
        (ActionResult.success "Master password updated successfully.",
         setUserMasterPassword users userId (encrypt iv v.newPassword))
      else (ActionResult.error "Incorrect current password.", users) := by
  have hcp0 : v.currentPassword ≠ "" := by
    intro hc
    rw [validateChangePassword, hc] at hv
    simp at hv
  have hcp : ("" == v.currentPassword) = false := by
    simp [beq_iff_eq]
    exact fun hh => hcp0 hh.symm
  simp only [changeMasterPassword, hv, hu]
  cases hmp : user.masterPassword with
  | blob iv2 p =>
    simp [hmp, CT.truthy, decrypt, passwordCheckSpec]
  | raw s =>
    by_cases hs : s = ""
    · subst hs
      simp [hmp, CT.truthy, decrypt, passwordCheckSpec, legacyCompare, hcp]
    · simp [hmp, CT.truthy, decrypt, passwordCheckSpec, legacyCompare, hs, bne]

/-- Counterexample to C3 as stated: for the stored user below and the
supplied empty password, the comparison described by the claim matches (the
stored master password decrypts to the empty string), yet
`verifyMasterPassword` does not report the password as correct: the upfront
required-fields guard rejects the empty password before any comparison is
attempted. -/
theorem masterPassword_check_counterexample :
    passwordCheckSpec (encrypt 0 "") "" = true ∧
    verifyMasterPassword
      [{ id := "u1", username := "eve", masterPassword := encrypt 0 "",
         banks := [] }] "eve" ""
      = VerifyOutcome.returns
          (AuthResult.error "Username and password are required.") := by
  exact ⟨rfl, rfl⟩

/-- Claim C3 (amended): for every supplied password that passes the
operation's input checks (non-empty username and password for
`verifyMasterPassword`; a form passing validation for
`changeMasterPassword`), and — for `verifyMasterPassword` — whenever its
regex username lookup compiles and locates a stored user, both operations
compare against that user's stored master password by attempting decryption
first and comparing the decrypted value, falling back to a direct raw
comparison exactly when decryption fails, and report the password correct
exactly when the comparison taken matches.  (`changeMasterPassword` looks
the user up by id, without the regex.) -/
theorem masterPassword_check_spec (users : List User) :
    (∀ username password user ts, username ≠ "" → password ≠ "" →
      compileUsernameRegex username = RCompile.compiled ts →
      users.find? (fun u => rmatch ts u.username.data) = some user →
      (verifyMasterPassword users username password =
        VerifyOutcome.returns
          (AuthResult.success "Login successful." (UserPublic.ofUser user)) ↔
       passwordCheckSpec user.masterPassword password = true)) ∧
    (∀ iv userId v user, validateChangePassword v = none →
      users.find? (fun u => u.id == userId) = some user →
      ((changeMasterPassword iv users userId v).1 =
        ActionResult.success "Master password updated successfully." ↔
       passwordCheckSpec user.masterPassword v.currentPassword = true)) := by
  constructor
  · intro username password user ts hu1 hp1 hc hfind
    have hg : (username == "" || password == "") = false := by
      simp [hu1, hp1]
    simp only [verifyMasterPassword, hg, Bool.false_eq_true, if_false,
      findUserByUsernameRegex, hc, hfind]
    rw [verifyUserPassword_eq_check user password hp1]
    by_cases hcheck : passwordCheckSpec user.masterPassword password = true
    · simp [hcheck]
    · simp [hcheck]
  · intro iv userId v user hv hu
    rw [changeMasterPassword_core iv users userId v user hv hu]
    by_cases hcheck : passwordCheckSpec user.masterPassword v.currentPassword = true
    · simp [hcheck]
    · simp [hcheck]

/-- Witness for C3 (amended) at concrete inputs. -/
theorem masterPassword_check_spec_witness :
    (verifyMasterPassword demoUsers "alice" "secret123" =
      VerifyOutcome.returns
        (AuthResult.success "Login successful." (UserPublic.ofUser demoUser)) ↔
     passwordCheckSpec demoUser.masterPassword "secret123" = true) ∧
    ((changeMasterPassword 11 demoUsers "u1"
        { currentPassword := "secret123", newPassword := "newpassword",
          confirmPassword := "newpassword" }).1 =
      ActionResult.success "Master password updated successfully." ↔
     passwordCheckSpec demoUser.masterPassword "secret123" = true) :=
  ⟨(masterPassword_check_spec demoUsers).1 "alice" "secret123" demoUser
     (litTerms "alice") (by decide) (by decide) (by decide) rfl,
   (masterPassword_check_spec demoUsers).2 11 "u1"
     { currentPassword := "secret123", newPassword := "newpassword",
       confirmPassword := "newpassword" } demoUser rfl rfl⟩

/-- Counterexample to C8 as stated: the empty password is a wrong password
for the stored user "alice", yet the operation's error is the
required-fields message rather than the generic invalid-credentials one. -/
theorem verify_wrong_password_counterexample :
    passwordCheckSpec demoUser.masterPassword "" = false ∧
    verifyMasterPassword demoUsers "alice" "" ≠
      VerifyOutcome.returns
        (AuthResult.error "Invalid username or password.") := by
  exact ⟨by decide, by decide⟩

/-- Claim C8 (amended): for every non-empty username whose anchored pattern
compiles within the modelled regex fragment and every non-empty password
wrong for every stored user the pattern matches, `verifyMasterPassword`
returns the one generic error "Invalid username or password." whether or not
any stored user matches; a username whose pattern is regex-invalid makes the
RegExp constructor throw a SyntaxError past the boundary for any password;
an empty username or password yields the required-fields error.  Which of
these happens depends only on the supplied strings, never on whether the
username exists in the store. -/
theorem verify_username_enumeration_safe (users : List User)
    (username password : String) :
    (∀ ts, username ≠ "" → password ≠ "" →
      compileUsernameRegex username = RCompile.compiled ts →
      (∀ u, users.find? (fun u => rmatch ts u.username.data) = some u →
        passwordCheckSpec u.masterPassword password = false) →
      verifyMasterPassword users username password =
        VerifyOutcome.returns (AuthResult.error "Invalid username or password.")) ∧
    (username ≠ "" → password ≠ "" →
      compileUsernameRegex username = RCompile.syntaxError →
      verifyMasterPassword users username password =
        VerifyOutcome.throwsSyntaxError) ∧
    ((username = "" ∨ password = "") →
      verifyMasterPassword users username password =
        VerifyOutcome.returns
          (AuthResult.error "Username and password are required.")) := by
  refine ⟨?_, ?_, ?_⟩
  · intro ts hu1 hp1 hc hw
    have hg : (username == "" || password == "") = false := by
      simp [hu1, hp1]
    cases hfind : users.find? (fun u => rmatch ts u.username.data) with
    | none =>
      have hlk : findUserByUsernameRegex users username = LookupResult.ok none := by
        simp [findUserByUsernameRegex, hc, hfind]
      simp [verifyMasterPassword, hg, hlk]
    | some u =>
      have hlk : findUserByUsernameRegex users username = LookupResult.ok (some u) := by
        simp [findUserByUsernameRegex, hc, hfind]
      simp only [verifyMasterPassword, hg, Bool.false_eq_true, if_false, hlk]
      rw [verifyUserPassword_eq_check u password hp1]
      simp [hw u hfind]
  · intro hu1 hp1 hc
    have hg : (username == "" || password == "") = false := by
      simp [hu1, hp1]
    simp [verifyMasterPassword, hg, findUserByUsernameRegex, hc]
  · intro h
    have hg : (username == "" || password == "") = true := by
      rcases h with h | h <;> simp [h]
    simp [verifyMasterPassword, hg]

/-- Witness for C8 (amended): the same wrong password gives the same generic
error for an existing username and an absent one; a regex-invalid username
throws; the empty password gives the required-fields error. -/
theorem verify_username_enumeration_safe_witness :
    verifyMasterPassword demoUsers "alice" "wrongpw" =
      VerifyOutcome.returns (AuthResult.error "Invalid username or password.") ∧
    verifyMasterPassword demoUsers "bob" "wrongpw" =
      VerifyOutcome.returns (AuthResult.error "Invalid username or password.") ∧
    verifyMasterPassword demoUsers "ab++" "wrongpw" =
      VerifyOutcome.throwsSyntaxError ∧
    verifyMasterPassword demoUsers "alice" "" =
      VerifyOutcome.returns
        (AuthResult.error "Username and password are required.") :=
  ⟨(verify_username_enumeration_safe demoUsers "alice" "wrongpw").1
     (litTerms "alice") (by decide) (by decide) (by decide)
     (fun u hu => by
       have h2 : some demoUser = some u := hu
       injection h2 with h3
       rw [← h3]
       decide),
   (verify_username_enumeration_safe demoUsers "bob" "wrongpw").1
     (litTerms "bob") (by decide) (by decide) (by decide)
     (fun u hu => Option.noConfusion (show (none : Option User) = some u from hu)),
   (verify_username_enumeration_safe demoUsers "ab++" "wrongpw").2.1
     (by decide) (by decide) (by decide),
   (verify_username_enumeration_safe demoUsers "alice" "").2.2 (Or.inr rfl)⟩

/-! ## Claim C1: totality / DecryptionError containment -/

theorem truthy_of_isBlob (ct : CT) (h : ct.isBlob = true) : ct.truthy = true := by
  cases ct with
  | blob iv p => rfl
  | raw s => simp [CT.isBlob] at h

theorem decryptOpt_isOk (o : Option CT) (h : optWF o = true) :
    ∃ s, decryptOpt o = Except.ok s := by
  cases o with
  | none => exact ⟨"N/A", rfl⟩
  | some ct =>
    cases ct with
    | blob iv p => exact ⟨p, rfl⟩
    | raw s => simp [optWF, CT.isBlob] at h

theorem decryptCustomFields_isOk (fs : List CustomField)
    (h : ∀ f ∈ fs, f.label.isBlob = true ∧ f.value.isBlob = true) :
    ∃ out, decryptCustomFields fs = Except.ok out := by
  induction fs with
  | nil => exact ⟨[], rfl⟩
  | cons f rest ih =>
    obtain ⟨h1, h2⟩ := h f (List.mem_cons_self _ _)
    obtain ⟨out, hout⟩ := ih fun x hx => h x (List.mem_cons_of_mem _ hx)
    refine ⟨{ label := f.label.plaintext, value := f.value.plaintext } :: out, ?_⟩
    simp only [decryptCustomFields, decryptCustomField, decrypt_of_isBlob _ h1,
      decrypt_of_isBlob _ h2, truthy_of_isBlob _ h2, hout]
    rfl

theorem decryptCustomFieldsOpt_isOk (o : Option (List CustomField))
    (h : (match o with
          | none => true
          | some fields => fields.all fun f => f.label.isBlob && f.value.isBlob) = true) :
    ∃ out, decryptCustomFieldsOpt o = Except.ok out := by
  cases o with
  | none => exact ⟨none, rfl⟩
  | some fields =>
    have h2 : ∀ f ∈ fields, f.label.isBlob = true ∧ f.value.isBlob = true := by
      intro f hf
      have h3 := (List.all_eq_true.mp h) f hf
      simpa [Bool.and_eq_true] using h3
    obtain ⟨out, hout⟩ := decryptCustomFields_isOk fields h2
    exact ⟨some out, by simp [decryptCustomFieldsOpt, hout]⟩

/-- Counterexample to C1 as stated: a stored user document whose bank record
holds a legacy non-blob `bankName` (the very legacy strings spec section 7
allows in storage) makes `getBanksForUser` propagate the `DecryptionError`
raw past the operation boundary instead of returning a structured result:
the operation calls `decrypt` with no exception handler. -/
theorem getBanksForUser_raises_counterexample :
    getBanksForUser
      [{ id := "u1", username := "alice", masterPassword := encrypt 7 "pw",
         banks := [{ demoBank with bankName := CT.raw "Chase" }] }] "u1" =
      Except.error DecryptionError.malformed := by
  rfl

/-- Claim C1 (amended): `addBank`, `updateBank`, `deleteBank` and
`changeMasterPassword` always return a structured result, and the two
authentication operations catch `DecryptionError` internally;
`verifyMasterPassword` and `createUser` return a structured result whenever
the supplied username's anchored regex pattern compiles, while a
regex-invalid username makes the RegExp constructor throw a SyntaxError past
the boundary; the two read operations that call `decrypt` without a handler,
`getBanksForUser` and `decryptBank`, return a structured result whenever
every stored bank record satisfies the ciphertext well-formedness invariant
of spec section 3, and only the violation of that invariant lets a
`DecryptionError` escape them. -/
theorem read_ops_total_under_wf (users : List User)
    (userId bankId uuid username password : String) (iv : Nat)
    (h : ∀ u ∈ users, User.banksWF u = true) :
    ((∃ items, getBanksForUser users userId = Except.ok items) ∧
     (∃ r, decryptBank users userId bankId = Except.ok r)) ∧
    (∀ ts, username ≠ "" → password ≠ "" →
      compileUsernameRegex username = RCompile.compiled ts →
      ∃ r, verifyMasterPassword users username password = VerifyOutcome.returns r) ∧
    (username ≠ "" → password ≠ "" →
      compileUsernameRegex username = RCompile.syntaxError →
      verifyMasterPassword users username password = VerifyOutcome.throwsSyntaxError) ∧
    (∀ ts, compileUsernameRegex username = RCompile.compiled ts →
      ∃ r users2, createUser uuid iv users username password =
        CreateOutcome.returns r users2) ∧
    (validCreateUser username password = true →
      compileUsernameRegex username = RCompile.syntaxError →
      createUser uuid iv users username password = CreateOutcome.throwsSyntaxError) := by
  refine ⟨⟨?_, ?_⟩, ?_, ?_, ?_, ?_⟩
  · cases hfind : users.find? (fun u => u.id == userId) with
    | none => exact ⟨[], by simp [getBanksForUser, hfind]⟩
    | some user =>
      have hwf : User.banksWF user = true :=
        h user (List.mem_of_find?_eq_some hfind)
      have hba : ∀ b ∈ user.banks, b.bankName.isBlob = true ∧ b.accountNumber.isBlob = true := by
        intro b hb
        have hbwf := (List.all_eq_true.mp hwf) b hb
        simp only [Bank.wf, Bool.and_eq_true] at hbwf
        exact ⟨hbwf.1.1.1.1.1.1.1.1, hbwf.1.1.1.1.1.1.2⟩
      refine ⟨user.banks.map fun b =>
        { id := b.id, bankName := b.bankName.plaintext,
          accountNumber := b.accountNumber.plaintext }, ?_⟩
      simp [getBanksForUser, hfind, decryptListItems_eq_map user.banks hba]
  · cases hfind : users.find? (fun u => u.id == userId) with
    | none => exact ⟨RevealResult.error "User not found.", by simp [decryptBank, hfind]⟩
    | some user =>
      have hwf : User.banksWF user = true :=
        h user (List.mem_of_find?_eq_some hfind)
      cases hbank : user.banks.find? (fun b => b.id == bankId) with
      | none =>
        exact ⟨RevealResult.error "Bank not found.", by simp [decryptBank, hfind, hbank]⟩
      | some bank =>
        have hbwf := (List.all_eq_true.mp hwf) bank (List.mem_of_find?_eq_some hbank)
        simp only [Bank.wf, Bool.and_eq_true] at hbwf
        obtain ⟨⟨⟨⟨⟨⟨⟨⟨h1, h2⟩, h3⟩, h4⟩, h5⟩, h6⟩, h7⟩, h8⟩, h9⟩ := hbwf
        obtain ⟨s1, hs1⟩ := decryptOpt_isOk bank.netBankingPassword h6
        obtain ⟨s2, hs2⟩ := decryptOpt_isOk bank.mobileBankingPassword h7
        obtain ⟨s3, hs3⟩ := decryptOpt_isOk bank.atmPin h8
        obtain ⟨cf, hcf⟩ := decryptCustomFieldsOpt_isOk bank.customFields h9
        refine ⟨RevealResult.success "Bank decrypted."
          { id := bank.id
            bankName := bank.bankName.plaintext
            phoneForOtp := bank.phoneForOtp.plaintext
            accountNumber := bank.accountNumber.plaintext
            netBankingUsername := bank.netBankingUsername.plaintext
            netBankingPassword := s1
            mobileBankingUsername := bank.mobileBankingUsername.plaintext
            mobileBankingPassword := s2
            atmPin := s3
            customFields := cf }, ?_⟩
        simp only [decryptBank, hfind, hbank, decrypt_of_isBlob _ h1,
          decrypt_of_isBlob _ h2, decrypt_of_isBlob _ h3, decrypt_of_isBlob _ h4,
          decrypt_of_isBlob _ h5, hs1, hs2, hs3, hcf]
        rfl
  · intro ts hu1 hp1 hc
    have hg : (username == "" || password == "") = false := by
      simp [hu1, hp1]
    cases hfind : users.find? (fun u => rmatch ts u.username.data) with
    | none =>
      have hlk : findUserByUsernameRegex users username = LookupResult.ok none := by
        simp [findUserByUsernameRegex, hc, hfind]
      exact ⟨AuthResult.error "Invalid username or password.",
        by simp [verifyMasterPassword, hg, hlk]⟩
    | some u =>
      have hlk : findUserByUsernameRegex users username = LookupResult.ok (some u) := by
        simp [findUserByUsernameRegex, hc, hfind]
      exact ⟨verifyUserPassword u password,
        by simp [verifyMasterPassword, hg, hlk]⟩
  · intro hu1 hp1 hc
    have hg : (username == "" || password == "") = false := by
      simp [hu1, hp1]
    simp [verifyMasterPassword, hg, findUserByUsernameRegex, hc]
  · intro ts hc
    by_cases hv : validCreateUser username password = true
    · cases hfind : users.find? (fun u => rmatch ts u.username.data) with
      | none =>
        have hlk : findUserByUsernameRegex users username = LookupResult.ok none := by
          simp [findUserByUsernameRegex, hc, hfind]
        exact ⟨CreateResult.success
            ("User \x27" ++ username ++ "\x27 created successfully! You can now log in.")
            (UserPublic.ofUser
              { id := uuid, username := username
                masterPassword := encrypt iv password, banks := [] }),
          users ++ [{ id := uuid, username := username
                      masterPassword := encrypt iv password, banks := [] }],
          by simp [createUser, hv, hlk]⟩
      | some u =>
        have hlk : findUserByUsernameRegex users username = LookupResult.ok (some u) := by
          simp [findUserByUsernameRegex, hc, hfind]
        exact ⟨CreateResult.error "Username already taken.", users,
          by simp [createUser, hv, hlk]⟩
    · exact ⟨CreateResult.error
        "Invalid data provided. Username must be at least 3 characters and password at least 8.",
        users, by simp [createUser, hv]⟩
  · intro hv hc
    simp [createUser, hv, findUserByUsernameRegex, hc]

/-- Witness for C1 (amended) at a concrete well-formed store: both read
operations return, a compiling username makes verifyMasterPassword and
createUser return, and a regex-invalid username makes both throw. -/
theorem read_ops_total_under_wf_witness :
    ((∃ items, getBanksForUser demoUsers "u1" = Except.ok items) ∧
     (∃ r, decryptBank demoUsers "u1" "b1" = Except.ok r)) ∧
    (∃ r, verifyMasterPassword demoUsers "carol" "password123" =
      VerifyOutcome.returns r) ∧
    (∃ r users2, createUser "u9" 9 demoUsers "carol" "password123" =
      CreateOutcome.returns r users2) ∧
    verifyMasterPassword demoUsers "ab++" "password123" =
      VerifyOutcome.throwsSyntaxError ∧
    createUser "u9" 9 demoUsers "ab++" "password123" =
      CreateOutcome.throwsSyntaxError :=
  ⟨(read_ops_total_under_wf demoUsers "u1" "b1" "u9" "carol" "password123" 9
      (by decide)).1,
   (read_ops_total_under_wf demoUsers "u1" "b1" "u9" "carol" "password123" 9
      (by decide)).2.1 (litTerms "carol") (by decide) (by decide) (by decide),
   (read_ops_total_under_wf demoUsers "u1" "b1" "u9" "carol" "password123" 9
      (by decide)).2.2.2.1 (litTerms "carol") (by decide),
   (read_ops_total_under_wf demoUsers "u1" "b1" "u9" "ab++" "password123" 9
      (by decide)).2.2.1 (by decide) (by decide) (by decide),
   (read_ops_total_under_wf demoUsers "u1" "b1" "u9" "ab++" "password123" 9
      (by decide)).2.2.2.2 (by decide) (by decide)⟩

end LockBox
